import Mathlib

/-!
Shallow embedding of the PySpark streaming-tuning diagnostic notebook
(`class examples/Spark Streaming/Streaming Tuning.ipynb`).

Every notebook function is modelled as a pure Lean function returning the
ordered list of observable effects it performs (console prints, storage
append commits, sleeps, query stops, plotting-backend invocations).
JSON-dictionary field access that can raise in Python (`KeyError`,
`ValueError` from `int(...)`) is modelled with `Except String`, the error
string standing for the exception message.  Millisecond durations reported
by the engine are natural numbers; seconds obtained by `/ 1000` and the
caller-supplied trigger interval are exact rationals (the Python float
comparisons at the claimed boundaries are exact for these values, since
`T/1000` at the boundary and `0.5 * interval` are exactly representable).
The ambient Spark session is made explicit: the active-query registry, the
cluster's default parallelism and the wall clock are parameters.
-/

deriving instance DecidableEq for Except

namespace StreamingTuning

/-- An observable effect performed by a notebook function, in order. -/
inductive Effect where
  | print (line : String)
  | appendCommit (path : String) (rows : List (Nat × String))
  | sleep (seconds : ℚ)
  | stopQuery (queryId : String)
  | plot (timestamps : List String) (durations : List ℚ)
deriving Repr, DecidableEq

/-- One progress snapshot of a streaming query, as read from the engine's
JSON-like progress record.  `timestamp` models the extraction `p['timestamp']`
and `triggerExecutionMs` the extraction
`int(p['durationMs']['triggerExecution'])`; an `Except.error` value is a
Python exception raised during that extraction. -/
structure ProgressSnapshot where
  batchId : Nat
  numInputRows : Nat
  timestamp : Except String String
  triggerExecutionMs : Except String Nat
deriving Repr, DecidableEq

/-- A query handle: identifier, display name, current status message, the
last progress snapshot (`None` when no batch has completed) and the bounded
recent-progress history. -/
structure Query where
  id : String
  name : String
  statusMessage : String
  lastProgress : Option ProgressSnapshot
  recentProgress : List ProgressSnapshot
deriving Repr, DecidableEq

/-- A data reference: whether it is a live streaming reference, and the
partition count of its underlying RDD (`df.rdd.getNumPartitions()`). -/
structure DataFrame where
  isStreaming : Bool
  numPartitions : Nat
deriving Repr, DecidableEq

/-- `json.dumps(progress, indent=2)` rendering of a snapshot dictionary.
The exact indentation of the non-null rendering is abstracted; what matters
to the verification is that `json.dumps(None)` is the literal `null`. -/
def json_dumps : Option ProgressSnapshot → String
  | none => "null"
  | some p =>
      "\x7b \"batchId\": " ++ toString p.batchId ++
      ", \"numInputRows\": " ++ toString p.numInputRows ++ " \x7d"

/-- Notebook section 1: `show_query_progress(query)`. -/
def show_query_progress (query : Query) : List Effect :=
  [Effect.print "Last Progress Snapshot:",
   Effect.print (json_dumps query.lastProgress)]

/-- The four lines printed by the `batch_time > trigger_interval` branch of
`diagnose_performance`. -/
def slower_diagnosis : List Effect :=
  [Effect.print "\n[DIAGNOSIS] Batch is slower than trigger interval.",
   Effect.print "- Tune transformations to reduce load.",
   Effect.print "- Reduce input rate (e.g., maxOffsetsPerTrigger).",
   Effect.print "- Consider scaling up cluster cores or executors."]

/-- The three lines printed by the `batch_time < trigger_interval * 0.5`
branch of `diagnose_performance`. -/
def faster_diagnosis : List Effect :=
  [Effect.print "\n[DIAGNOSIS] Batch is much faster than trigger.",
   Effect.print "- You may be underutilizing resources.",
   Effect.print "- Consider reducing trigger interval for lower latency."]

/-- The two lines printed by the balanced branch of `diagnose_performance`. -/
def balanced_diagnosis : List Effect :=
  [Effect.print "\n[DIAGNOSIS] Trigger and batch are balanced.",
   Effect.print "- Good balance. Monitor input growth and state size."]

/-- Notebook section 2: `diagnose_performance(query, interval=60)`.
Mirrors the source line by line: falsy `lastProgress` prints the
not-started message and returns; the `try` block first extracts the
trigger-execution duration (so an extraction failure prints only the
soft-error message), then prints the two info lines and the branch chosen
by comparing `batch_time` with the interval. -/
def diagnose_performance (query : Query) (interval : ℚ := 60) : List Effect :=
  match query.lastProgress with
  | none => [Effect.print "No progress yet. Query may not have started."]
  | some progress =>
    match progress.triggerExecutionMs with
    | Except.error e =>
        [Effect.print ("Could not extract performance info: " ++ e)]
    | Except.ok t =>
        let batch_time : ℚ := (t : ℚ) / 1000
        let trigger_interval : ℚ := interval
        [Effect.print ("\nTrigger Interval: " ++ toString trigger_interval ++ " seconds"),
         Effect.print ("Batch Duration: " ++ toString batch_time ++ " seconds")] ++
        (if batch_time > trigger_interval then slower_diagnosis
         else if batch_time < trigger_interval * 0.5 then faster_diagnosis
         else balanced_diagnosis)

/-- The line printed for the `i`-th (1-based) active query by
`list_active_queries`. -/
def query_line (i : Nat) (q : Query) : String :=
  "[" ++ toString i ++ "] ID: " ++ q.id ++ ", Name: " ++ q.name ++
  ", Status: " ++ q.statusMessage

/-- Notebook section 4: `list_active_queries()`;
`spark.streams.active` is the explicit `queries` argument. -/
def list_active_queries (queries : List Query) : List Effect :=
  if queries = [] then [Effect.print "No active streaming queries."]
  else queries.enum.map (fun iq => Effect.print (query_line (iq.1 + 1) iq.2))

/-- Notebook section 5: `stop_all_queries()`;
`spark.streams.active` is the explicit `queries` argument. -/
def stop_all_queries (queries : List Query) : List Effect :=
  queries.flatMap (fun q =>
    [Effect.print ("Stopping query ID: " ++ q.id ++ ", Name: " ++ q.name),
     Effect.stopQuery q.id])

/-- `spark.range(start, stop)`: the integers `start, …, stop - 1`. -/
def spark_range (start stop : Nat) : List Nat :=
  List.range' start (stop - start)

/-- Notebook section 6: `simulate_delta_commits(base_path, num_batches,
rows_per_batch, interval_sec)`.  `now i` is the wall-clock timestamp
(`current_timestamp()`) observed while writing batch `i`.  Each iteration
appends the rows of `spark.range(i*rows_per_batch, (i+1)*rows_per_batch)`
tagged with that timestamp, prints the committed message, and sleeps. -/
def simulate_delta_commits (base_path : String) (num_batches : Nat)
    (rows_per_batch : Nat) (interval_sec : ℚ) (now : Nat → String) :
    List Effect :=
  (List.range num_batches).flatMap (fun i =>
    [Effect.appendCommit base_path
       ((spark_range (i * rows_per_batch) ((i + 1) * rows_per_batch)).map
         (fun v => (v, now i))),
     Effect.print ("Committed " ++ toString rows_per_batch ++
       " rows to Delta at batch " ++ toString i),
     Effect.sleep interval_sec])

/-- Notebook section 8: `check_partitions_and_cores_static(df)`;
`spark.sparkContext.defaultParallelism` is the explicit
`defaultParallelism` argument. -/
def check_partitions_and_cores_static (df : DataFrame)
    (defaultParallelism : Nat) : List Effect :=
  if df.isStreaming then
    [Effect.print "⚠️ Cannot check partitions on a streaming DataFrame. Try this after writing to Delta or converting to batch."]
  else
    let num_partitions := df.numPartitions
    let total_cores := defaultParallelism
    [Effect.print ("DataFrame partitions: " ++ toString num_partitions),
     Effect.print ("Available cluster cores: " ++ toString total_cores)] ++
    (if num_partitions < total_cores then
      [Effect.print "⚠️ Under-partitioned: not all cores will be used."]
    else if num_partitions > total_cores * 4 then
      [Effect.print "⚠️ Over-partitioned: could lead to overhead and small files."]
    else
      [Effect.print "✅ Partitioning is well balanced with available cores."])

/-- One step of the `for p in progress_history` loop of
`plot_task_durations`, acting on the pair
`(durations, timestamps)`.  The Python loop body appends to `durations`
first; only then does it evaluate `p['timestamp']`, so a snapshot whose
duration extracts but whose timestamp extraction raises leaves `durations`
one element longer while `timestamps` is unchanged (the `except: continue`
runs after the first append has already happened). -/
def plot_step (acc : List ℚ × List String) (p : ProgressSnapshot) :
    List ℚ × List String :=
  match p.triggerExecutionMs with
  | Except.error _ => acc
  | Except.ok t =>
      let durations := acc.1 ++ [(t : ℚ) / 1000]
      match p.timestamp with
      | Except.error _ => (durations, acc.2)
      | Except.ok ts => (durations, acc.2 ++ [ts])

/-- Notebook section 9: `plot_task_durations(query)`.  An empty history
prints the no-history message; otherwise the loop accumulates durations
and timestamps via `plot_step`, and either the plotting backend is invoked
with `plt.plot(timestamps, durations)` or the no-valid-durations message
is printed. -/
def plot_task_durations (query : Query) : List Effect :=
  if query.recentProgress = [] then
    [Effect.print "No progress history available."]
  else
    let acc := query.recentProgress.foldl plot_step ([], [])
    if acc.1 ≠ [] then [Effect.plot acc.2 acc.1]
    else [Effect.print "No valid durations to plot."]

/-- Extract the append-commit effects (path and committed rows) of a trace. -/
def commit_effects (trace : List Effect) : List (String × List (Nat × String)) :=
  trace.filterMap (fun e =>
    match e with
    | Effect.appendCommit p rows => some (p, rows)
    | _ => none)

/-- Extract the sleep durations of a trace, in order. -/
def sleep_effects (trace : List Effect) : List ℚ :=
  trace.filterMap (fun e =>
    match e with
    | Effect.sleep s => some s
    | _ => none)

/-- `True` iff the effect is a console print. -/
def isPrint : Effect → Prop
  | Effect.print _ => True
  | _ => False

/-- `true` iff both the trigger-duration and the timestamp extraction of the
snapshot succeed (neither Python access raises). -/
def both_extractions_succeed (p : ProgressSnapshot) : Bool :=
  p.triggerExecutionMs.toOption.isSome && p.timestamp.toOption.isSome

/-! Concrete values used by the witness theorems. -/

/-- A query handle before any batch has completed: no last progress, empty
history. -/
def qNoProgress : Query :=
  { id := "q-1", name := "demo", statusMessage := "Waiting for data",
    lastProgress := none, recentProgress := [] }

/-- A snapshot whose duration extraction raises (malformed `durationMs`). -/
def errSnapshot : ProgressSnapshot :=
  { batchId := 7, numInputRows := 100,
    timestamp := Except.ok "2025-01-01T00:00:07.000Z",
    triggerExecutionMs := Except.error "KeyError: triggerExecution" }

/-- A query whose last progress snapshot has a malformed duration field. -/
def qBadDuration : Query :=
  { id := "q-2", name := "demo2", statusMessage := "Processing",
    lastProgress := some errSnapshot, recentProgress := [errSnapshot] }

/-- A healthy snapshot: trigger duration 30000 ms, valid timestamp. -/
def okSnapshot : ProgressSnapshot :=
  { batchId := 8, numInputRows := 2000,
    timestamp := Except.ok "2025-01-01T00:00:08.000Z",
    triggerExecutionMs := Except.ok 30000 }

/-- A query whose last progress snapshot is healthy (30 s trigger time). -/
def qOk : Query :=
  { id := "q-3", name := "demo3", statusMessage := "Processing",
    lastProgress := some okSnapshot, recentProgress := [okSnapshot] }

/-- A snapshot whose duration extracts to 5000 ms but whose timestamp
extraction raises (`p['timestamp']` missing). -/
def orphanSnapshot : ProgressSnapshot :=
  { batchId := 3, numInputRows := 500,
    timestamp := Except.error "KeyError: timestamp",
    triggerExecutionMs := Except.ok 5000 }

/-- A query whose only history entry is `orphanSnapshot`. -/
def qOrphan : Query :=
  { id := "q-4", name := "orphan", statusMessage := "Processing",
    lastProgress := some orphanSnapshot, recentProgress := [orphanSnapshot] }

/-- A streaming data reference. -/
def dfStreaming : DataFrame := { isStreaming := true, numPartitions := 0 }

/-- C9: a query handle with no completed batch (`lastProgress` absent/null)
makes `show_query_progress` return normally, printing only the header and
the `null` rendering; every effect it performs is console output (no
storage, stop, sleep or plotting side effect). -/
theorem show_query_progress_no_progress (q : Query)
    (h : q.lastProgress = none) :
    show_query_progress q =
      [Effect.print "Last Progress Snapshot:", Effect.print "null"] ∧
    ∀ e ∈ show_query_progress q, isPrint e := by
  refine ⟨by simp [show_query_progress, json_dumps, h], ?_⟩
  intro e he
  simp only [show_query_progress, List.mem_cons, List.not_mem_nil,
    or_false] at he
  rcases he with he | he <;> subst he <;> exact trivial

/-- Witness for C9 at a concrete query with no progress. -/
theorem show_query_progress_no_progress_witness :
    show_query_progress qNoProgress =
      [Effect.print "Last Progress Snapshot:", Effect.print "null"] ∧
    ∀ e ∈ show_query_progress qNoProgress, isPrint e :=
  show_query_progress_no_progress qNoProgress rfl

/-- C10: a query whose recent-progress history is empty makes
`plot_task_durations` print the no-progress-history message and return at
once: no extraction result and no plotting-backend invocation appears in
its effect trace. -/
theorem plot_task_durations_no_history (q : Query)
    (h : q.recentProgress = []) :
    plot_task_durations q = [Effect.print "No progress history available."] := by
  simp [plot_task_durations, h]

/-- Witness for C10 at a concrete query with empty history. -/
theorem plot_task_durations_no_history_witness :
    plot_task_durations qNoProgress =
      [Effect.print "No progress history available."] :=
  plot_task_durations_no_history qNoProgress rfl

/-- C6: a streaming data reference makes
`check_partitions_and_cores_static` print only the warning and return:
no partition count, core count or classification line is emitted, and the
function is total (no exception). -/
theorem check_partitions_streaming_refused (df : DataFrame) (cores : Nat)
    (h : df.isStreaming = true) :
    check_partitions_and_cores_static df cores =
      [Effect.print "⚠️ Cannot check partitions on a streaming DataFrame. Try this after writing to Delta or converting to batch."] := by
  simp [check_partitions_and_cores_static, h]

/-- Witness for C6 at a concrete streaming reference. -/
theorem check_partitions_streaming_refused_witness :
    check_partitions_and_cores_static dfStreaming 8 =
      [Effect.print "⚠️ Cannot check partitions on a streaming DataFrame. Try this after writing to Delta or converting to batch."] :=
  check_partitions_streaming_refused dfStreaming 8 rfl

/-- C3: on a non-streaming reference with `P` partitions and `C` cores, the
classification line printed after the two info lines is the
under-partitioned warning exactly when `P < C`, the over-partitioned
warning exactly when `P > C * 4`, and the balanced message exactly when
`C ≤ P ≤ C * 4`. -/
theorem check_partitions_classification (df : DataFrame) (cores : Nat)
    (h : df.isStreaming = false) :
    ((check_partitions_and_cores_static df cores).drop 2 =
        [Effect.print "⚠️ Under-partitioned: not all cores will be used."] ↔
      df.numPartitions < cores) ∧
    ((check_partitions_and_cores_static df cores).drop 2 =
        [Effect.print "⚠️ Over-partitioned: could lead to overhead and small files."] ↔
      df.numPartitions > cores * 4) ∧
    ((check_partitions_and_cores_static df cores).drop 2 =
        [Effect.print "✅ Partitioning is well balanced with available cores."] ↔
      cores ≤ df.numPartitions ∧ df.numPartitions ≤ cores * 4) := by
  simp only [check_partitions_and_cores_static, h, Bool.false_eq_true,
    if_false, List.cons_append, List.nil_append, List.drop_succ_cons,
    List.drop_zero]
  split_ifs with h1 h2
  · exact ⟨iff_of_true rfl h1, iff_of_false (by decide) (by omega),
      iff_of_false (by decide) (by omega)⟩
  · exact ⟨iff_of_false (by decide) (by omega), iff_of_true rfl h2,
      iff_of_false (by decide) (by omega)⟩
  · exact ⟨iff_of_false (by decide) (by omega),
      iff_of_false (by decide) (by omega), iff_of_true rfl (by omega)⟩

/-- Witness for C3: the three concrete examples of the claim —
partitions 2 / cores 8 is under-partitioned, 40 / 8 is over-partitioned,
16 / 8 is balanced. -/
theorem check_partitions_classification_witness :
    (check_partitions_and_cores_static ⟨false, 2⟩ 8).drop 2 =
      [Effect.print "⚠️ Under-partitioned: not all cores will be used."] ∧
    (check_partitions_and_cores_static ⟨false, 40⟩ 8).drop 2 =
      [Effect.print "⚠️ Over-partitioned: could lead to overhead and small files."] ∧
    (check_partitions_and_cores_static ⟨false, 16⟩ 8).drop 2 =
      [Effect.print "✅ Partitioning is well balanced with available cores."] :=
  ⟨(check_partitions_classification ⟨false, 2⟩ 8 rfl).1.mpr (by decide),
   ((check_partitions_classification ⟨false, 40⟩ 8 rfl).2.1).mpr (by decide),
   ((check_partitions_classification ⟨false, 16⟩ 8 rfl).2.2).mpr (by decide)⟩

/-- Dropping two elements from a cons-cons list leaves the tail. -/
theorem drop_two_cons_cons {α : Type} (a b : α) (l : List α) :
    (a :: b :: l).drop 2 = l := rfl

/-- C1: for a query whose last snapshot reports a trigger-execution
duration of `T` milliseconds and a caller-supplied interval `I` seconds,
the diagnosis block printed by `diagnose_performance` (the lines after the
two info lines) is the slower-than-trigger block exactly when
`T / 1000 > I`, the much-faster block exactly when `T / 1000 < 0.5 * I`,
and the balanced block otherwise; both boundaries `T / 1000 = I` and
`T / 1000 = 0.5 * I` resolve to the balanced block. -/
theorem diagnose_performance_classification (q : Query)
    (p : ProgressSnapshot) (T : Nat) (I : ℚ)
    (hq : q.lastProgress = some p)
    (hp : p.triggerExecutionMs = Except.ok T) :
    ((diagnose_performance q I).drop 2 = slower_diagnosis ↔
      (T : ℚ) / 1000 > I) ∧
    ((diagnose_performance q I).drop 2 = faster_diagnosis ↔
      (T : ℚ) / 1000 < 0.5 * I) ∧
    ((diagnose_performance q I).drop 2 = balanced_diagnosis ↔
      ¬((T : ℚ) / 1000 > I) ∧ ¬((T : ℚ) / 1000 < 0.5 * I)) ∧
    ((T : ℚ) / 1000 = I →
      (diagnose_performance q I).drop 2 = balanced_diagnosis) ∧
    ((T : ℚ) / 1000 = 0.5 * I →
      (diagnose_performance q I).drop 2 = balanced_diagnosis) := by
  have hb : (0 : ℚ) ≤ (T : ℚ) / 1000 := by positivity
  have hform : (diagnose_performance q I).drop 2 =
      (if (T : ℚ) / 1000 > I then slower_diagnosis
       else if (T : ℚ) / 1000 < I * 0.5 then faster_diagnosis
       else balanced_diagnosis) := by
    simp only [diagnose_performance, hq, hp]
    exact drop_two_cons_cons _ _ _
  rw [hform]
  split_ifs with h1 h2
  · refine ⟨iff_of_true rfl h1,
      iff_of_false (by decide) (by intro hlt; linarith),
      iff_of_false (by decide) (fun hc => hc.1 h1),
      fun heq => absurd h1 (by rw [heq]; exact lt_irrefl I),
      fun heq => by rw [heq] at h1 hb; linarith⟩
  · refine ⟨iff_of_false (by decide) h1,
      iff_of_true rfl (by linarith),
      iff_of_false (by decide) (fun hc => hc.2 (by linarith)),
      fun heq => by rw [heq] at h2 hb; linarith,
      fun heq => by rw [heq] at h2; linarith⟩
  · exact ⟨iff_of_false (by decide) h1,
      iff_of_false (by decide) (fun hlt => h2 (by linarith)),
      iff_of_true rfl ⟨h1, fun hlt => h2 (by linarith)⟩,
      fun _ => rfl, fun _ => rfl⟩

/-- Witness for C1: a 30000 ms batch against a 10 s interval is classified
slower than the trigger, and a 5000 ms batch against a 10 s interval sits
exactly at the `0.5 * I` boundary and is classified balanced. -/
theorem diagnose_performance_classification_witness :
    (diagnose_performance qOk 10).drop 2 = slower_diagnosis ∧
    (diagnose_performance qOrphan 10).drop 2 = balanced_diagnosis :=
  ⟨(diagnose_performance_classification qOk okSnapshot 30000 10 rfl
      rfl).1.mpr (by norm_num),
   (diagnose_performance_classification qOrphan orphanSnapshot 5000 10 rfl
      rfl).2.2.2.2 (by norm_num)⟩

/-- C5: `diagnose_performance` only ever prints (every effect in its trace
is console output — it never raises and touches no storage); with no
progress snapshot it prints exactly the not-started message; with a
snapshot whose duration extraction raises `e` it prints exactly the
soft-error message carrying `e`. -/
theorem diagnose_performance_total_and_soft (q : Query) (I : ℚ) :
    (∀ e ∈ diagnose_performance q I, isPrint e) ∧
    (q.lastProgress = none →
      diagnose_performance q I =
        [Effect.print "No progress yet. Query may not have started."]) ∧
    (∀ (p : ProgressSnapshot) (e : String), q.lastProgress = some p →
      p.triggerExecutionMs = Except.error e →
      diagnose_performance q I =
        [Effect.print ("Could not extract performance info: " ++ e)]) := by
  refine ⟨?_, fun h => by simp [diagnose_performance, h],
    fun p e hq hp => by simp [diagnose_performance, hq, hp]⟩
  intro e he
  rcases hq : q.lastProgress with _ | p
  · simp only [diagnose_performance, hq, List.mem_cons, List.not_mem_nil,
      or_false] at he
    subst he; exact trivial
  · rcases hp : p.triggerExecutionMs with err | t
    · simp only [diagnose_performance, hq, hp, List.mem_cons,
        List.not_mem_nil, or_false] at he
      subst he; exact trivial
    · simp only [diagnose_performance, hq, hp, List.cons_append,
        List.nil_append, List.mem_cons] at he
      rcases he with he | he | he
      · subst he; exact trivial
      · subst he; exact trivial
      · split_ifs at he <;> fin_cases he <;> exact trivial

/-- Witness for C5: concrete queries with no progress and with a malformed
duration field, plus a concrete member of a trace being a print. -/
theorem diagnose_performance_total_and_soft_witness :
    diagnose_performance qNoProgress 60 =
      [Effect.print "No progress yet. Query may not have started."] ∧
    diagnose_performance qBadDuration 60 =
      [Effect.print ("Could not extract performance info: " ++
        "KeyError: triggerExecution")] ∧
    isPrint (Effect.print "No progress yet. Query may not have started.") :=
  ⟨(diagnose_performance_total_and_soft qNoProgress 60).2.1 rfl,
   (diagnose_performance_total_and_soft qBadDuration 60).2.2 errSnapshot
     "KeyError: triggerExecution" rfl rfl,
   (diagnose_performance_total_and_soft qNoProgress 60).1
     (Effect.print "No progress yet. Query may not have started.")
     (by simp [diagnose_performance, qNoProgress])⟩

/-- C7: with an empty registry, `list_active_queries` prints exactly the
no-active-queries message and `stop_all_queries` performs no effect at all
(in particular no stop); with a non-empty registry, `list_active_queries`
prints one line per query, the `i`-th line (0-based `i`) carrying the
1-based index `i + 1` and the query's id, name and status message. -/
theorem registry_inspector (qs : List Query) :
    (list_active_queries [] = [Effect.print "No active streaming queries."]) ∧
    (stop_all_queries [] = []) ∧
    (qs ≠ [] →
      (list_active_queries qs).length = qs.length ∧
      ∀ (i : Nat) (h : i < qs.length),
        (list_active_queries qs)[i]? =
          some (Effect.print (query_line (i + 1) qs[i]))) := by
  refine ⟨rfl, rfl, fun hne => ⟨?_, ?_⟩⟩
  · simp [list_active_queries, hne]
  · intro i h
    simp [list_active_queries, hne, List.getElem?_eq_getElem h]

/-- Witness for C7: a two-query registry produces the expected second line,
and the empty registry produces the no-active-queries message and no stop
effects. -/
theorem registry_inspector_witness :
    (list_active_queries [qOk, qBadDuration])[1]? =
      some (Effect.print "[2] ID: q-2, Name: demo2, Status: Processing") ∧
    list_active_queries [] = [Effect.print "No active streaming queries."] ∧
    stop_all_queries [] = [] :=
  ⟨(((registry_inspector [qOk, qBadDuration]).2.2
      (List.cons_ne_nil _ _)).2 1 (by decide)).trans (by decide),
   (registry_inspector []).1, (registry_inspector []).2.1⟩

/-- Appending traces splits their commit effects. -/
theorem commit_effects_append (l₁ l₂ : List Effect) :
    commit_effects (l₁ ++ l₂) = commit_effects l₁ ++ commit_effects l₂ :=
  List.filterMap_append l₁ l₂ _

/-- Appending traces splits their sleep effects. -/
theorem sleep_effects_append (l₁ l₂ : List Effect) :
    sleep_effects (l₁ ++ l₂) = sleep_effects l₁ ++ sleep_effects l₂ :=
  List.filterMap_append l₁ l₂ _

/-- Unrolling one iteration of the commit simulator. -/
theorem simulate_delta_commits_succ (base_path : String) (k : Nat)
    (r : Nat) (s : ℚ) (now : Nat → String) :
    simulate_delta_commits base_path (k + 1) r s now =
      simulate_delta_commits base_path k r s now ++
      [Effect.appendCommit base_path
         ((spark_range (k * r) ((k + 1) * r)).map (fun v => (v, now k))),
       Effect.print ("Committed " ++ toString r ++
         " rows to Delta at batch " ++ toString k),
       Effect.sleep s] := by
  unfold simulate_delta_commits
  rw [List.range_succ, List.flatMap_append]
  simp

/-- `spark.range(i*r, (i+1)*r)` is the block of `r` integers from `i*r`. -/
theorem spark_range_block (i r : Nat) :
    spark_range (i * r) ((i + 1) * r) = List.range' (i * r) r := by
  unfold spark_range
  rw [Nat.succ_mul, Nat.add_sub_cancel_left]

/-- C4: `simulate_delta_commits` with `n` batches of `r` rows issues, in
iteration order, exactly `n` append commits to the target location, the
`i`-th (0-based) containing exactly the sequential integers
`i*r, …, (i+1)*r - 1`, each tagged with the wall-clock timestamp of that
iteration; the returned trace (the function's complete synchronous run)
contains all `n` commits. -/
theorem simulate_delta_commits_exact (base_path : String) (n r : Nat)
    (s : ℚ) (now : Nat → String) :
    commit_effects (simulate_delta_commits base_path n r s now) =
      (List.range n).map (fun i =>
        (base_path, (List.range' (i * r) r).map (fun v => (v, now i)))) := by
  induction n with
  | zero => rfl
  | succ k ih =>
      rw [simulate_delta_commits_succ, commit_effects_append, ih,
        List.range_succ, List.map_append, spark_range_block]
      rfl

/-- C8: the trace of `simulate_delta_commits` contains exactly
`num_batches` sleep effects, each of `interval_sec` seconds, so the total
time spent sleeping is `num_batches * interval_sec` seconds. -/
theorem simulate_delta_commits_sleeps (base_path : String) (n r : Nat)
    (s : ℚ) (now : Nat → String) :
    sleep_effects (simulate_delta_commits base_path n r s now) =
      List.replicate n s ∧
    (sleep_effects (simulate_delta_commits base_path n r s now)).length = n ∧
    (sleep_effects (simulate_delta_commits base_path n r s now)).sum =
      (n : ℚ) * s := by
  have h : sleep_effects (simulate_delta_commits base_path n r s now) =
      List.replicate n s := by
    induction n with
    | zero => rfl
    | succ k ih =>
        rw [simulate_delta_commits_succ, sleep_effects_append, ih,
          List.replicate_succ']
        rfl
  refine ⟨h, by rw [h, List.length_replicate], ?_⟩
  rw [h, List.sum_replicate, nsmul_eq_mul]

/-- C2 (code bug): on a history whose only snapshot has an extractable
5000 ms duration but a timestamp whose extraction raises, the Python loop
has already appended `5.0` to `durations` when the exception fires, so
`plot_task_durations` invokes the plotting backend with x-axis `[]` and
y-axis `[5]` — it neither skips the snapshot cleanly nor restricts itself
to snapshots where both extractions succeed (there are none here, so the
claimed behavior would print the no-valid-durations message instead; the
real backend then raises on the mismatched axis lengths). -/
theorem plot_task_durations_desync :
    plot_task_durations qOrphan = [Effect.plot [] [5]] ∧
    qOrphan.recentProgress.filter both_extractions_succeed = [] := by
  refine ⟨?_, by decide⟩
  norm_num [plot_task_durations, qOrphan, orphanSnapshot, plot_step]

end StreamingTuning
